import Mathlib

/-!
Shallow embedding of the cp2totoro media-transfer utility (`utils/menu.py`,
`utils/misc.py`, `utils/scp_connect.py`, `utils/ssh_operations.py`,
`utils/output.py`).

Paths are modelled as lists of components, rooted at the configured origin
folder (so the origin folder itself is the empty path `[]`).  The local
filesystem is an oracle (`FS`) supplying, for each directory path, the raw
`iterdir` listing (in unspecified OS order) and an `is_dir` test on canonical
paths.  Interactive terminal input is modelled as scripted data: each call to
the `menu` wrapper consumes one interaction outcome, which is the value of the
external library's `chosen_menu_entries` attribute (`Option (List String)`;
`none` models the `None` attribute whose `list(...)` coercion raises
`TypeError`).  Process exit (`sys.exit`) and raised exceptions are modelled as
explicit result constructors instead of control effects.
-/

/-- `str(Path(p).resolve())`, restricted to the `..`-normalisation the program
exercises: a `..` component removes the preceding component (at the root it is
a no-op, as for the filesystem root).  Symlinks and `.` components are outside
the model. -/
def resolvePath (p : List String) : List String :=
  p.foldl (fun acc c => if c = ".." then acc.dropLast else acc ++ [c]) []

/-- The local filesystem, as the oracle surface the program reads through
`pathlib`: `listing p` is the sequence of entry names `Path(p).iterdir()`
yields (OS order, unspecified), and `is_dir p` tells whether the canonical
path `p` is a directory. -/
structure FS where
  listing : List String → List String
  is_dir : List String → Bool

/-- `Path(p).is_dir()`: Python resolves the path before testing. -/
def path_is_dir (fs : FS) (p : List String) : Bool :=
  fs.is_dir (resolvePath p)

/-- Python's `sorted` on strings: stable lexicographic sort. -/
def sortedStr (l : List String) : List String :=
  l.mergeSort (fun a b => decide (a ≤ b))

/-- The subdirectory names in `Path(p).iterdir()` order (the entries for which
`item.is_dir()` holds). -/
def dirs_of (fs : FS) (p : List String) : List String :=
  (fs.listing p).filter (fun name => path_is_dir fs (p ++ [name]))

/-- The non-directory entry names in `Path(p).iterdir()` order. -/
def files_of (fs : FS) (p : List String) : List String :=
  (fs.listing p).filter (fun name => !path_is_dir fs (p ++ [name]))

/-- `get_list_of_items` (`utils/menu.py:11`): iterate over `path.iterdir()`,
appending each entry name to `dirs` or `files` according to `item.is_dir()`,
then return `sorted(dirs) + sorted(files)`.  The `FileNotFoundError` branch
(mount prompt and retry) is outside the model: `FS.listing` is total,
representing directories whose listing succeeds. -/
def get_list_of_items (fs : FS) (folder_path : List String) : List String :=
  let split := (fs.listing folder_path).foldl
    (fun (acc : List String × List String) (item : String) =>
      if path_is_dir fs (folder_path ++ [item]) then (acc.1 ++ [item], acc.2)
      else (acc.1, acc.2 ++ [item]))
    ([], [])
  sortedStr split.1 ++ sortedStr split.2

/-- Result of the `menu` wrapper: either the list of chosen labels, or the
`KeyboardInterrupt` it raises when the library signalled `TypeError`. -/
inductive MenuResult where
  | selected (labels : List String)
  | cancelled
deriving DecidableEq

/-- The label sequence the terminal menu displays: the caller's items, then
the synthetic `..`, then `DONE` when requested (`utils/menu.py:60-64`). -/
def menu_items_shown (selectable_items : List String) (add_done_option : Bool) :
    List String :=
  (selectable_items ++ [".."]) ++ (if add_done_option then ["DONE"] else [])

/-- `menu` (`utils/menu.py:43`): builds the displayed list, shows the terminal
menu, and returns `list(terminal_menu.chosen_menu_entries)`.  The external
library's outcome is the `chosen_menu_entries` parameter; when it is `None`
the `list(...)` call raises `TypeError`, which the `except` clause converts to
`raise KeyboardInterrupt` (modelled as `.cancelled`). -/
def menu (selectable_items : List String) (add_done_option : Bool)
    (chosen_menu_entries : Option (List String)) : MenuResult :=
  let _displayed := menu_items_shown selectable_items add_done_option
  match chosen_menu_entries with
  | some entries => MenuResult.selected entries
  | none => MenuResult.cancelled

/-- `bye` (`utils/output.py:48`): prints a farewell message and calls
`sys.exit(1)`; the value is the exit status. -/
def bye : Nat := 1

/-- The configured origin folder (`origin_folder` from `utils/config.py`) is
the root of the modelled path space. -/
def origin_folder : List String := []

/-- One element of the Selection Set: the Python dict `{folder: files}`
built by `select_origin`. -/
structure SelectionEntry where
  folder : List String
  files : List String
deriving DecidableEq

/-- How an invocation of `select_origin` ends: a returned Selection Set, a
`sys.exit` with the given status (via `bye`), a propagating
`KeyboardInterrupt` from `menu`, or exhaustion of the scripted interactions
(the user walked deeper than the script provides; the real program would
block on the terminal). -/
inductive OriginResult where
  | ok (selection : List SelectionEntry)
  | exited (code : Nat)
  | interrupted
  | noMoreInput
deriving DecidableEq

/-- `select_origin` (`utils/menu.py:115`): recursive interactive traversal.
The Python signature is
`select_origin(current_folder=origin_folder, pre_selected_items=[], selection_is_done=False)`;
`pre_selected_items` is a mutable list shared by reference through the
recursion (and, for default-argument calls, across top-level calls — see the
second component of the result).  The embedding threads that list's contents
explicitly and returns the pair (function result, final contents of the
`pre_selected_items` list object).  Each non-`selection_is_done` call consumes
one scripted menu interaction.  The `isinstance(selected_item, list)` test in
the `DONE` branch is always false here because `menu` returns strings, so each
chosen label is wrapped as a singleton list, exactly as in the source. -/
def select_origin (fs : FS) (script : List (Option (List String)))
    (current_folder : List String) (pre_selected_items : List SelectionEntry)
    (selection_is_done : Bool) : OriginResult × List SelectionEntry :=
  if selection_is_done then (OriginResult.ok pre_selected_items, pre_selected_items)
  else
    match script with
    | [] => (OriginResult.noMoreInput, pre_selected_items)
    | outcome :: rest =>
      let current := resolvePath current_folder
      let add_done_option := current = origin_folder
      match menu (get_list_of_items fs current) add_done_option outcome with
      | MenuResult.cancelled => (OriginResult.interrupted, pre_selected_items)
      | MenuResult.selected selected_items =>
        match selected_items.getLast? with
        | none => (OriginResult.exited bye, pre_selected_items)
        | some item =>
          if item = "DONE" then
            select_origin fs rest current
              (pre_selected_items ++
                selected_items.dropLast.map (fun s => ⟨current, [s]⟩))
              true
          else if path_is_dir fs (current ++ [item]) then
            select_origin fs rest (current ++ [item])
              (pre_selected_items ++ [⟨current, selected_items.dropLast⟩])
              false
          else
            (OriginResult.ok [⟨current, [item]⟩], pre_selected_items)

/-- How `select_destination` ends: a destination string, a propagating
`KeyboardInterrupt` from `menu`, or an `IndexError` from subscripting an
empty chosen list with `[0]`. -/
inductive DestResult where
  | ok (destination : String)
  | interrupted
  | indexError
deriving DecidableEq

/-- `select_destination` (`utils/menu.py:78`): prompts for a media type among
`["movies", "series", "comedy", "documentaries"]`, sets
`destination = f"{destination_base_folder}/{media_type}/"`, and for `series`
prompts (over the configured series folder's listings) for a serie and a
season, overwriting the destination with
`f"{destination_base_folder}/series/{serie}/{season}/"`.  `base` is the
configured `destination_base_folder`, `series_folder` the configured series
root (a single opaque component in the modelled path space); `o1 o2 o3` are
the scripted outcomes of the three `menu` calls in order. -/
def select_destination (fs : FS) (series_folder : String) (base : String)
    (o1 o2 o3 : Option (List String)) : DestResult :=
  match menu ["movies", "series", "comedy", "documentaries"] false o1 with
  | MenuResult.cancelled => DestResult.interrupted
  | MenuResult.selected media_sel =>
    match media_sel.head? with
    | none => DestResult.indexError
    | some media_type =>
      let destination := base ++ "/" ++ media_type ++ "/"
      if media_type = "series" then
        match menu (get_list_of_items fs [series_folder]) false o2 with
        | MenuResult.cancelled => DestResult.interrupted
        | MenuResult.selected serie_sel =>
          match serie_sel.head? with
          | none => DestResult.indexError
          | some serie =>
            match menu (get_list_of_items fs [series_folder, serie]) false o3 with
            | MenuResult.cancelled => DestResult.interrupted
            | MenuResult.selected season_sel =>
              match season_sel.head? with
              | none => DestResult.indexError
              | some season =>
                DestResult.ok (base ++ "/series/" ++ serie ++ "/" ++ season ++ "/")
      else DestResult.ok destination

/-- Python's `str.lower` on one character, restricted to ASCII (the
confirmation comparisons only involve ASCII letters). -/
def char_lower (c : Char) : Char :=
  if 'A' ≤ c ∧ c ≤ 'Z' then Char.ofNat (c.toNat + 32) else c

/-- Python's `str.lower`, restricted to ASCII. -/
def str_lower (s : String) : String :=
  String.mk (s.data.map char_lower)

/-- `f"{size_bytes:.2f}"` for the nonnegative exact values this development
reaches: the integer and power-of-two byte counts of the scenarios divide
exactly by 1024, so Python's binary floating point is exact there and no
rounding-mode subtlety arises. -/
def format_two_decimal (q : ℚ) : String :=
  let n : Nat := (Int.floor (q * 100 + 1 / 2)).toNat
  Nat.repr (n / 100) ++ "." ++
    (if n % 100 < 10 then "0" ++ Nat.repr (n % 100) else Nat.repr (n % 100))

/-- The unit suffixes of `format_size` (`utils/misc.py:204`). -/
def format_size_units : List String := ["B", "KB", "MB", "GB", "TB"]

/-- The `for size in sizes` loop of `format_size`: return at the first unit
for which `size_bytes < 1024.0`, else divide by 1024 and continue; after the
loop, fall through to `f"{size_bytes:.2f} {sizes[-1]}"`. -/
def format_size_loop (size_bytes : ℚ) : List String → String
  | [] => format_two_decimal size_bytes ++ " " ++ format_size_units.getLastD ""
  | size :: rest =>
    if size_bytes < 1024 then format_two_decimal size_bytes ++ " " ++ size
    else format_size_loop (size_bytes / 1024) rest

/-- `format_size` (`utils/misc.py:194`), over exact rationals in place of
Python floats (division by 1024 only shifts the binary exponent, so the two
agree on all sizes below the float-precision threshold). -/
def format_size (size_bytes : ℚ) : String :=
  format_size_loop size_bytes format_size_units

/-- One element of the `origin_files` list handed to the transfer code: the
Python dict `{directory: file_names}` with its single key a joined path
string. -/
structure OriginItem where
  dir : String
  files : List String
deriving DecidableEq

/-- `confirmation_flow` (`utils/misc.py:53`): prints the summary, reads the
confirmation, and returns `True` when `copy_confirmation.lower()` is `"y"` or
`"yes"`; otherwise it falls off the end, returning Python's `None` (modelled
as `none`). -/
def confirmation_flow (copy_confirmation : String) : Option Bool :=
  if ["y", "yes"].contains (str_lower copy_confirmation) then some true else none

/-- Python truthiness of an `Option Bool` value (`None` is falsy). -/
def truthy : Option Bool → Bool
  | some b => b
  | none => false

/-- `Path(p).stem + Path(p).suffix`: the final component of a path string. -/
def basename (path : String) : String :=
  (path.splitOn "/").getLastD ""

/-- `conversion_flow` (`utils/misc.py:81`): if the conversion prompt answer
lowercases to `y`/`yes`, rebuild the origin list, keeping only items with a
non-empty file list and replacing each file name by the basename of
`convert_to_H265_codec(f"{directory}/{file_name}")`; otherwise return the
list unchanged.  The ffmpeg-driven `convert_to_H265_codec` is the oracle
`convert` (its failure path calls `sys.exit(1)` and is outside this model;
the claims settled here bypass conversion). -/
def conversion_flow (convert : String → String) (convert_confirmation : String)
    (origin_files : List OriginItem) : List OriginItem :=
  if ["y", "yes"].contains (str_lower convert_confirmation) then
    (origin_files.filter (fun full_item => !full_item.files.isEmpty)).map
      (fun full_item =>
        ⟨full_item.dir,
         full_item.files.map (fun file_name =>
           basename (convert (full_item.dir ++ "/" ++ file_name)))⟩)
  else origin_files

/-- `collect_file_names` (`utils/ssh_operations.py:14`): the flattened list of
`(f"{folder}/{file}", file)` pairs. -/
def collect_file_names (origin_files : List OriginItem) : List (String × String) :=
  (origin_files.map (fun full_item =>
    full_item.files.map (fun f => (full_item.dir ++ "/" ++ f, f)))).flatten

/-- A remote-side effect issued over the secure session: opening the SSH/SCP
session, one `scp.put`, the recursive `chmod 755`, one `ls -alh` file check,
or the `df` free-space query. -/
inductive RemoteOp where
  | openSession
  | put (source_file : String) (remote_path : String)
  | chmodRecursive755 (destination_folder : String)
  | listFile (path : String)
  | spaceQuery
deriving DecidableEq

/-- `establish_ssh_and_scp` (`utils/ssh_operations.py:34`): connects and runs
`scp.put` for every collected file.  `session_ok` is the network oracle: when
`true` the whole transmission loop completes; when `false` an exception is
raised during establishment/transmission (second component `true`), after
which `scp` re-raises and the caller exits — the model does not need the
partial trace's exact cut point. -/
def establish_ssh_and_scp (session_ok : Bool) (origin_files : List OriginItem)
    (destination_folder : String) : List RemoteOp × Bool :=
  if session_ok then
    (RemoteOp.openSession ::
      (collect_file_names origin_files).map
        (fun sf => RemoteOp.put sf.1 destination_folder),
     false)
  else ([RemoteOp.openSession], true)

/-- `set_permissions` (`utils/ssh_operations.py:69`): `chmod -R 755` on the
destination over ssh. -/
def set_permissions (destination_folder : String) : List RemoteOp :=
  [RemoteOp.chmodRecursive755 destination_folder]

/-- `check_files` (`utils/ssh_operations.py:173`): one
`ls -alh "{destination_folder}{file_name}"` per transferred file. -/
def check_files (origin_files : List OriginItem) (destination_folder : String) :
    List RemoteOp :=
  (origin_files.map (fun full_item =>
    full_item.files.map (fun f =>
      RemoteOp.listFile (destination_folder ++ f)))).flatten

/-- `check_space` (`utils/ssh_operations.py:203`): the `df` free-space
query. -/
def check_space : List RemoteOp := [RemoteOp.spaceQuery]

/-- How `scp` ends: a Python return value (`some true` for `return True`,
`none` for the implicit `None` fall-through) or a propagating exception. -/
inductive ScpOutcome where
  | returns (value : Option Bool)
  | raises
deriving DecidableEq

/-- `scp` (`utils/scp_connect.py:12`): clears the screen (local, unmodelled),
runs `conversion_flow`, and only if `confirmation_flow` is truthy opens the
session and transfers, sets permissions, checks files and space, and
`return True`; otherwise it returns `None` having issued no remote
operation.  The first component is the trace of remote-side effects. -/
def scp (convert : String → String)
    (convert_confirmation copy_confirmation : String) (session_ok : Bool)
    (origin_files : List OriginItem) (destination_folder : String) :
    List RemoteOp × ScpOutcome :=
  let origin_files2 := conversion_flow convert convert_confirmation origin_files
  if truthy (confirmation_flow copy_confirmation) then
    let transfer := establish_ssh_and_scp session_ok origin_files2 destination_folder
    if transfer.2 then (transfer.1, ScpOutcome.raises)
    else
      (transfer.1 ++ set_permissions destination_folder ++
        check_files origin_files2 destination_folder ++ check_space,
       ScpOutcome.returns (some true))
  else ([], ScpOutcome.returns none)

/-- Scenario fixture: a root (origin) folder containing exactly the files
`a.mkv` and `b.mkv` and no subdirectories. -/
def fsC1 : FS :=
  ⟨fun p => if p = [] then ["a.mkv", "b.mkv"] else [],
   fun p => decide (p = [])⟩

/-- Scenario fixture: the user toggles both files and the `DONE` sentinel in
the single root menu. -/
def scriptC1 : List (Option (List String)) := [some ["a.mkv", "b.mkv", "DONE"]]

/-- The Selection Set `select_origin` actually produces in Scenario 1: one
entry per chosen file. -/
def entriesC1 : List SelectionEntry := [⟨[], ["a.mkv"]⟩, ⟨[], ["b.mkv"]⟩]

/-- Scenario fixture: a root containing only the subdirectory `S1`, which
contains only the file `ep1.mkv`. -/
def fsC2 : FS :=
  ⟨fun p => if p = [] then ["S1"] else if p = ["S1"] then ["ep1.mkv"] else [],
   fun p => decide (p = [] ∨ p = ["S1"])⟩

/-- Scenario fixture: the user picks `S1` at the root, then `ep1.mkv` and
`DONE` inside `S1`. -/
def scriptC2 : List (Option (List String)) := [some ["S1"], some ["ep1.mkv", "DONE"]]

theorem truthy_confirmation (s : String) :
    truthy (confirmation_flow s) = decide (str_lower s = "y" ∨ str_lower s = "yes") := by
  have h : confirmation_flow s
      = if (str_lower s = "y" ∨ str_lower s = "yes") then some true else none := by
    simp [confirmation_flow, List.contains]
  rw [h]
  by_cases hP : (str_lower s = "y" ∨ str_lower s = "yes") <;> simp [truthy, hP]

theorem foldl_partition {α : Type} (P : α → Bool) (l : List α) :
    ∀ acc1 acc2 : List α,
      l.foldl (fun acc item =>
          if P item then (acc.1 ++ [item], acc.2) else (acc.1, acc.2 ++ [item]))
        (acc1, acc2)
      = (acc1 ++ l.filter P, acc2 ++ l.filter (fun x => !P x)) := by
  induction l with
  | nil => intro acc1 acc2; simp
  | cons x xs ih =>
    intro acc1 acc2
    by_cases h : P x <;> simp [h, ih]

theorem sortedStr_pairwise (l : List String) :
    (sortedStr l).Pairwise (fun a b => a ≤ b) := by
  have h := @List.sorted_mergeSort String (fun a b => decide (a ≤ b))
    (fun (a b c : String) hab hbc =>
      decide_eq_true (le_trans (of_decide_eq_true hab) (of_decide_eq_true hbc)))
    (fun (a b : String) => by rcases le_total a b with h | h <;> simp [h]) l
  exact h.imp (fun hab => of_decide_eq_true hab)

/-- Claim C1, counterexample: at a root with exactly the files `a.mkv` and
`b.mkv`, selecting both and then `DONE` does NOT yield the single-entry
Selection Set `[{root: [a.mkv, b.mkv]}]` the claim states: the `DONE` branch
of `select_origin` appends one `{current_folder: [label]}` dict per chosen
label. -/
theorem select_origin_scenario1_not_single_entry :
    (select_origin fsC1 scriptC1 [] [] false).1
      ≠ OriginResult.ok [⟨[], ["a.mkv", "b.mkv"]⟩] := by
  decide

/-- Claim C1, amended: at a root with exactly the files `a.mkv` and `b.mkv`,
selecting both and then `DONE` yields the two-entry Selection Set
`[{root: [a.mkv]}, {root: [b.mkv]}]` — one Selection Entry per chosen file,
so the root directory path appears once per chosen file, not at most once. -/
theorem select_origin_scenario1_entry_per_file :
    (select_origin fsC1 scriptC1 [] [] false).1 = OriginResult.ok entriesC1 := by
  decide

/-- Claim C2: with a root containing only subdirectory `S1` containing only
`ep1.mkv`, choosing `S1` at the root (descending) and then `ep1.mkv` plus
`DONE` inside `S1` returns `[{root: []}, {S1: [ep1.mkv]}]`: the descent
pushes `{root: []}` and the `DONE` branch appends the nested entry and
finalizes.  (The menu interactions are the values the terminal library hands
back; `select_origin` tests the last label against `"DONE"` at every depth.) -/
theorem select_origin_scenario2_descend_done :
    (select_origin fsC2 scriptC2 [] [] false).1
      = OriginResult.ok [⟨[], []⟩, ⟨["S1"], ["ep1.mkv"]⟩] := by
  decide

/-- Claim C3: at any recursion depth (`current_folder`, accumulated
`pre_selected_items` arbitrary), if the last chosen label is neither `"DONE"`
nor a subdirectory of the current folder, `select_origin` returns exactly the
one-entry Selection Set `[{current_folder: [label]}]`, discarding everything
accumulated so far. -/
theorem select_origin_single_file_fallback (fs : FS)
    (rest : List (Option (List String))) (current_folder : List String)
    (pre_selected_items : List SelectionEntry) (selected_items : List String)
    (item : String) (hlast : selected_items.getLast? = some item)
    (hdone : item ≠ "DONE")
    (hdir : path_is_dir fs (resolvePath current_folder ++ [item]) = false) :
    (select_origin fs (some selected_items :: rest) current_folder
        pre_selected_items false).1
      = OriginResult.ok [⟨resolvePath current_folder, [item]⟩] := by
  simp [select_origin, menu, hlast, hdone, hdir]

/-- Witness for C3: a concrete deep call with a non-empty accumulator whose
entries are discarded by the single-file fallback. -/
theorem select_origin_single_file_fallback_witness :
    (select_origin fsC1 [some ["a.mkv"]] [] [⟨["S1"], ["old.mkv"]⟩] false).1
      = OriginResult.ok [⟨[], ["a.mkv"]⟩] :=
  select_origin_single_file_fallback fsC1 [] [] [⟨["S1"], ["old.mkv"]⟩]
    ["a.mkv"] "a.mkv" (by decide) (by decide) (by decide)

/-- Claim C4: `scp` transfers only after the confirmation prompt answer
lowercases to `y`/`yes`; on any other answer it issues no remote operation at
all and returns Python's `None` (no success indicator); and it returns `True`
exactly when the user confirmed and the transmission loop completed without
raising, opening the session first. -/
theorem scp_confirmation_gating (convert : String → String)
    (convert_confirmation copy_confirmation : String) (session_ok : Bool)
    (origin_files : List OriginItem) (destination_folder : String) :
    (str_lower copy_confirmation ≠ "y" ∧ str_lower copy_confirmation ≠ "yes" →
      scp convert convert_confirmation copy_confirmation session_ok
          origin_files destination_folder
        = ([], ScpOutcome.returns none)) ∧
    ((scp convert convert_confirmation copy_confirmation session_ok
          origin_files destination_folder).2 = ScpOutcome.returns (some true) →
      (str_lower copy_confirmation = "y" ∨ str_lower copy_confirmation = "yes")
        ∧ session_ok = true) ∧
    ((str_lower copy_confirmation = "y" ∨ str_lower copy_confirmation = "yes") →
      session_ok = true →
      (scp convert convert_confirmation copy_confirmation session_ok
          origin_files destination_folder).2 = ScpOutcome.returns (some true) ∧
      (scp convert convert_confirmation copy_confirmation session_ok
          origin_files destination_folder).1.head? = some RemoteOp.openSession) := by
  by_cases hP : (str_lower copy_confirmation = "y" ∨ str_lower copy_confirmation = "yes")
  · have hd : decide (str_lower copy_confirmation = "y"
        ∨ str_lower copy_confirmation = "yes") = true := decide_eq_true hP
    refine ⟨?_, ?_, ?_⟩
    · intro h
      exact absurd hP (by rintro (h1 | h2); exacts [h.1 h1, h.2 h2])
    · intro h
      refine ⟨hP, ?_⟩
      by_contra hok
      have hokf : session_ok = false := by
        cases session_ok
        · rfl
        · exact absurd rfl hok
      rw [hokf] at h
      simp [scp, truthy_confirmation, hd, establish_ssh_and_scp] at h
    · intro _ hok
      subst hok
      constructor <;> simp [scp, truthy_confirmation, hd, establish_ssh_and_scp]
  · have hd : decide (str_lower copy_confirmation = "y"
        ∨ str_lower copy_confirmation = "yes") = false := decide_eq_false hP
    refine ⟨?_, ?_, ?_⟩
    · intro _
      simp [scp, truthy_confirmation, hd]
    · intro h
      exfalso
      simp [scp, truthy_confirmation, hd] at h
    · intro h
      exact absurd h hP

/-- Witness for C4: with answer `n` the trace is empty and the result is the
falsy `None`. -/
theorem scp_confirmation_gating_witness :
    (str_lower "n" ≠ "y" ∧ str_lower "n" ≠ "yes") ∧
    scp (fun s => s) "n" "n" true [] "/dest/" = ([], ScpOutcome.returns none) :=
  ⟨by decide,
   (scp_confirmation_gating (fun s => s) "n" "n" true [] "/dest/").1 (by decide)⟩

/-- Claim C5: for every directory (whose listing succeeds), the Item Lister
returns exactly the sorted subdirectory names concatenated with the sorted
file names: both halves are sorted permutations of the respective partitions
of the raw listing, and every name in the first half is a directory while
every name in the second half is not (so directories come before files). -/
theorem get_list_of_items_sorted_partition (fs : FS) (p : List String) :
    get_list_of_items fs p = sortedStr (dirs_of fs p) ++ sortedStr (files_of fs p)
    ∧ (sortedStr (dirs_of fs p)).Pairwise (fun a b => a ≤ b)
    ∧ (sortedStr (files_of fs p)).Pairwise (fun a b => a ≤ b)
    ∧ List.Perm (sortedStr (dirs_of fs p)) (dirs_of fs p)
    ∧ List.Perm (sortedStr (files_of fs p)) (files_of fs p)
    ∧ (∀ d ∈ sortedStr (dirs_of fs p), path_is_dir fs (p ++ [d]) = true)
    ∧ (∀ f ∈ sortedStr (files_of fs p), path_is_dir fs (p ++ [f]) = false) := by
  refine ⟨?_, sortedStr_pairwise _, sortedStr_pairwise _,
    List.mergeSort_perm _ _, List.mergeSort_perm _ _, ?_, ?_⟩
  · rw [get_list_of_items, dirs_of, files_of]
    rw [foldl_partition]
    simp
  · intro d hd
    have hmem : d ∈ dirs_of fs p := (List.Perm.mem_iff (List.mergeSort_perm _ _)).mp hd
    exact (List.mem_filter.mp hmem).2
  · intro f hf
    have hmem : f ∈ files_of fs p := (List.Perm.mem_iff (List.mergeSort_perm _ _)).mp hf
    have h2 := (List.mem_filter.mp hmem).2
    simpa using h2

/-- Claim C6: every chosen category other than `series` yields the
destination `<base>/<category>/`; category `series` with chosen serie `S` and
season `N` yields `<base>/series/<S>/<N>/`; both destination forms end in the
separator. -/
theorem select_destination_category_paths (fs : FS) (series_folder base : String)
    (c : String) (r1 : List String) (S : String) (r2 : List String)
    (N : String) (r3 : List String) (o2 o3 : Option (List String))
    (hc : c ≠ "series") :
    select_destination fs series_folder base (some (c :: r1)) o2 o3
      = DestResult.ok (base ++ "/" ++ c ++ "/")
    ∧ select_destination fs series_folder base (some ("series" :: r1))
        (some (S :: r2)) (some (N :: r3))
      = DestResult.ok (base ++ "/series/" ++ S ++ "/" ++ N ++ "/")
    ∧ (∃ t, base ++ "/" ++ c ++ "/" = t ++ "/")
    ∧ (∃ t, base ++ "/series/" ++ S ++ "/" ++ N ++ "/" = t ++ "/") := by
  refine ⟨?_, ?_, ⟨base ++ "/" ++ c, rfl⟩, ⟨base ++ "/series/" ++ S ++ "/" ++ N, rfl⟩⟩
  · simp [select_destination, menu, hc]
  · simp [select_destination, menu]

/-- Witness for C6: category `movies` and the `series`/`Show`/`S01` drill-down
at concrete configuration values. -/
theorem select_destination_category_paths_witness :
    ("movies" : String) ≠ "series" ∧
    select_destination fsC1 "series_root" "/base" (some ["movies"]) none none
      = DestResult.ok "/base/movies/" ∧
    select_destination fsC1 "series_root" "/base" (some ["series"])
        (some ["Show"]) (some ["S01"])
      = DestResult.ok "/base/series/Show/S01/" :=
  ⟨by decide,
   (select_destination_category_paths fsC1 "series_root" "/base" "movies" []
      "Show" [] "S01" [] none none (by decide)).1,
   (select_destination_category_paths fsC1 "series_root" "/base" "movies" []
      "Show" [] "S01" [] none none (by decide)).2.1⟩

/-- Claim C7: when the terminal interaction layer yields no chosen entries
(the `None` whose `list(...)` raises `TypeError`), `menu` raises the
cancellation signal (`KeyboardInterrupt`), while an empty selection is
returned as the empty list — a distinct outcome. -/
theorem menu_type_error_is_cancellation (selectable_items : List String)
    (add_done_option : Bool) :
    menu selectable_items add_done_option none = MenuResult.cancelled
    ∧ menu selectable_items add_done_option (some []) = MenuResult.selected []
    ∧ MenuResult.selected [] ≠ MenuResult.cancelled :=
  ⟨rfl, rfl, by decide⟩

/-- Claim C8: an empty selection at the top level of `select_origin` ends the
run through the farewell routine (`sys.exit` with `bye`'s status) instead of
returning a Selection Set, and `bye`'s exit status is 1. -/
theorem select_origin_empty_selection_farewell (fs : FS)
    (rest : List (Option (List String))) :
    (select_origin fs (some [] :: rest) [] [] false).1 = OriginResult.exited bye
    ∧ bye = 1 := by
  constructor
  · simp [select_origin, menu]
  · rfl

/-- Claim C9: `format_size` maps 1024 to `"1.00 KB"`, 1099511627776 to
`"1.00 TB"`, and 500 to `"500.00 B"`. -/
theorem format_size_scenarios :
    format_size 1024 = "1.00 KB"
    ∧ format_size 1099511627776 = "1.00 TB"
    ∧ format_size 500 = "500.00 B" := by
  refine ⟨?_, ?_, ?_⟩ <;>
    · simp only [format_size, format_size_units, format_size_loop, format_two_decimal]
      norm_num
      decide

/-- Claim C10: the default-argument accumulator persists across top-level
calls: running `select_origin` twice with identical menu choices (Scenario 1
both times), the second run returns the first run's two entries again plus
its own two — the result of a default-argument call is not a function of the
current traversal's menu choices alone.  (The second component of
`select_origin`'s result is the final content of the `pre_selected_items`
default list object, which the second call starts from.) -/
theorem select_origin_mutable_default_two_runs :
    (select_origin fsC1 scriptC1 [] [] false).1 = OriginResult.ok entriesC1
    ∧ (select_origin fsC1 scriptC1 []
        (select_origin fsC1 scriptC1 [] [] false).2 false).1
      = OriginResult.ok (entriesC1 ++ entriesC1)
    ∧ OriginResult.ok (entriesC1 ++ entriesC1) ≠ OriginResult.ok entriesC1 := by
  refine ⟨by decide, by decide, by decide⟩
